import Mathlib

/-!
Shallow embedding of the Telecom-churn-predictor frontend
(`PredictPanel.tsx`, `InsightsPanel.tsx`, `LineChart.tsx`, `BarChart.tsx`)
together with spec-modelled definitions for the prediction-serving core
(the backend `app.py` / `main.py` is referenced by the build scripts but its
source is not part of the reviewed tree).

JavaScript numbers are embedded as rationals (`ℚ`); `undefined`/`null` become
`Option`; fallible operations return `Except`.
-/

/- ### Shared API response shape (frontend `lib/api` contract, spec §6) -/

/-- The backend response consumed by both panels:
`{ prediction_text, confidence, churn_probability, no_churn_probability }`. -/
structure PredictionResponse where
  churn_probability : ℚ
  no_churn_probability : ℚ
  prediction_text : String
  confidence : ℚ
deriving DecidableEq

/-- The 12-field prediction request (`PredictionRequest` in `lib/api`,
`CustomerRecord` in the spec): categorical fields as strings, numeric fields
as rationals, mirroring `formData` in `PredictPanel.tsx`. -/
structure PredictionRequest where
  telecom_partner : String
  gender : String
  age : ℚ
  state : String
  city : String
  pincode : ℚ
  date_of_registration : String
  num_dependents : ℚ
  estimated_salary : ℚ
  calls_made : ℚ
  sms_sent : ℚ
  data_used : ℚ
deriving DecidableEq

/- ### Risk-bucket policy (the two client-side call sites) -/

/-- `PredictPanel.tsx` line 51:
`churnProbability > 0.6 ? 'high' : churnProbability > 0.3 ? 'medium' : 'low'`. -/
def riskLevel (p : ℚ) : String :=
  if p > 3/5 then "high" else if p > 3/10 then "medium" else "low"

/-- `InsightsPanel.tsx` line 244:
`pred.churn_probability > 0.6 ? 'HIGH' : pred.churn_probability > 0.3 ? 'MEDIUM' : 'LOW'`. -/
def formatRisk (p : ℚ) : String :=
  if p > 3/5 then "HIGH" else if p > 3/10 then "MEDIUM" else "LOW"

/- ### PredictPanel.makePrediction -/

/-- JavaScript `Math.round` on a rational: `⌊x + 1/2⌋` (round half up). -/
def jsRound (q : ℚ) : ℤ := ⌊q + 1/2⌋

/-- The retention-suggestion list built in `PredictPanel.makePrediction`
(lines 53-71) followed by `suggestions.slice(0, 4)` (line 77). -/
def predictSuggestions (churnProbability estimated_salary num_dependents : ℚ) :
    List String :=
  let base :=
    if churnProbability > 3/5 then
      ["Offer a loyalty discount or special promotion",
       "Contact customer to discuss service satisfaction",
       "Upgrade to a longer-term contract with benefits"]
    else if churnProbability > 3/10 then
      ["Send personalized retention offers",
       "Improve service quality and customer support"]
    else
      ["Customer is satisfied - maintain service quality",
       "Consider upselling additional services"]
  let withSalary :=
    if estimated_salary > 80000 then
      base ++ ["Review pricing plan for potential savings"]
    else base
  let withDeps :=
    if num_dependents > 0 then
      withSalary ++ ["Provide family plan benefits"]
    else withSalary
  withDeps.take 4

/-- The `PredictionResult` record assembled by `PredictPanel.makePrediction`. -/
structure PredictionResult where
  churnProbability : ℚ
  loyaltyScore : ℤ
  riskLevel : String
  suggestions : List String
deriving DecidableEq

/-- The component state touched by `makePrediction`:
`loading`, `result` (null ↝ `none`), `error` (null ↝ `none`). -/
structure PredictState where
  loading : Bool
  result : Option PredictionResult
  error : Option String
deriving DecidableEq

/-- JavaScript `maybe || dflt` on an optional string: `undefined`/`null` and
the empty string are falsy. Models `err.response?.data?.error || '...'`. -/
def jsOrString (v : Option String) (dflt : String) : String :=
  match v with
  | some s => if s = "" then dflt else s
  | none => dflt

/-- `PredictPanel.makePrediction` (lines 41-87), with the `await
apiService.predictChurn(...)` outcome made an explicit `Except` argument:
`.ok` is the backend response, `.error` the caught exception (carrying the
optional `err.response?.data?.error` text). The function returns the state
after the `try/catch/finally`. -/
def makePrediction (form : PredictionRequest)
    (api : Except (Option String) PredictionResponse) : PredictState :=
  match api with
  | .ok response =>
    let churnProbability := response.churn_probability
    let loyaltyScore := jsRound ((1 - churnProbability) * 100)
    { loading := false
      result := some
        { churnProbability := churnProbability
          loyaltyScore := loyaltyScore
          riskLevel := riskLevel churnProbability
          suggestions :=
            predictSuggestions churnProbability form.estimated_salary
              form.num_dependents }
      error := none }
  | .error e =>
    { loading := false
      result := none
      error := some (jsOrString e "Failed to make prediction. Please try again.") }

/- ### Chart components (`LineChart.tsx`, `BarChart.tsx`) -/

/-- Rendered output of `LineChart`: the empty-data placeholder or a list of
`(x, y)` SVG points. -/
inductive LineChartView where
  | noData
  | chart (points : List (ℚ × ℚ))
deriving DecidableEq

/-- Rendered output of `BarChart`: the empty-data placeholder or a list of
`(churnedHeight, stayedHeight)` pairs. -/
inductive BarChartView where
  | noData
  | chart (bars : List (ℚ × ℚ))
deriving DecidableEq

/-- `LineChart` line 14: `Math.max(...data.map(item => item.value), 1)`. -/
def lineMaxValue (data : List (String × ℚ)) : ℚ :=
  (data.map (fun item => item.2)).foldr max 1

/-- `LineChart` line 21 divisor: `(data.length - 1 || 1)` (JS `||` replaces a
zero left operand by 1). -/
def lineDenom (n : ℕ) : ℕ :=
  if n - 1 = 0 then 1 else n - 1

/-- `LineChart` (lines 5-28): placeholder on empty data, otherwise points at
`x = padding + index * xStep`, `y = height - padding - value * yScale` with
`width = 800`, `height = 200`, `padding = 40`. -/
def LineChart (data : List (String × ℚ)) : LineChartView :=
  if data.length = 0 then .noData
  else
    let maxValue := lineMaxValue data
    let xStep : ℚ := 720 / (lineDenom data.length : ℚ)
    let yScale : ℚ := 120 / maxValue
    .chart ((data.map (fun item => item.2)).enum.map
      (fun x => (40 + (x.1 : ℚ) * xStep, 200 - 40 - x.2 * yScale)))

/-- `BarChart` line 125: `Math.max(...data.map(item => item.churned +
item.stayed))`; only evaluated on non-empty data (the empty spread, JS
`-Infinity`, is unreachable behind the early return). -/
def barMaxValue (data : List (ℚ × ℚ)) : ℚ :=
  match data.map (fun item => item.1 + item.2) with
  | [] => 0
  | a :: as => as.foldl max a

/-- `BarChart` line 126: `maxValue > 0 ? 200 / maxValue : 0`. -/
def barScale (data : List (ℚ × ℚ)) : ℚ :=
  if barMaxValue data > 0 then 200 / barMaxValue data else 0

/-- `BarChart` (lines 116-162): placeholder on empty data, otherwise bar
heights `item.churned * scale` and `item.stayed * scale`. -/
def BarChart (data : List (ℚ × ℚ)) : BarChartView :=
  if data.length = 0 then .noData
  else .chart (data.map (fun item => (item.1 * barScale data, item.2 * barScale data)))

/- ### JavaScript string primitives used by `InsightsPanel.tsx` -/

/-- JS `String.prototype.toLowerCase` (ASCII case mapping). -/
def jsToLower (s : String) : String := ⟨s.data.map Char.toLower⟩

/-- JS whitespace recognised by `trim` (the characters that occur here). -/
def jsIsSpace (c : Char) : Bool := c == ' ' || c == '\t' || c == '\n' || c == '\r'

/-- JS `String.prototype.trim`. -/
def jsTrim (s : String) : String :=
  ⟨((s.data.dropWhile jsIsSpace).reverse.dropWhile jsIsSpace).reverse⟩

/-- Does the second character list start with the first? -/
def charsStartWith : List Char → List Char → Bool
  | [], _ => true
  | _ :: _, [] => false
  | a :: pat, b :: hay => a == b && charsStartWith pat hay

/-- Substring occurrence on character lists (pattern, haystack). -/
def charsContain (pat : List Char) : List Char → Bool
  | [] => pat.isEmpty
  | b :: hay => charsStartWith pat (b :: hay) || charsContain pat hay

/-- JS `String.prototype.includes`. -/
def jsIncludes (s pat : String) : Bool := charsContain pat.data s.data

/-- JS `Array.prototype.join(sep)` on string arrays. -/
def jsJoin (sep : String) : List String → String
  | [] => ""
  | [a] => a
  | a :: b :: rest => a ++ sep ++ jsJoin sep (b :: rest)

/- ### InsightsPanel: partial requests and validation -/

/-- A raw field value of a partial request: a string or a number (the two
shapes `extractPredictionRequest` can produce). -/
inductive JsValue where
  | str (s : String)
  | num (q : ℚ)
deriving DecidableEq

/-- `Partial<PredictionRequest>`: every one of the 12 keys may be absent
(JS `undefined`/`null` ↝ `none`). -/
structure PartialRequest where
  telecom_partner : Option JsValue
  gender : Option JsValue
  age : Option JsValue
  state : Option JsValue
  city : Option JsValue
  pincode : Option JsValue
  date_of_registration : Option JsValue
  num_dependents : Option JsValue
  estimated_salary : Option JsValue
  calls_made : Option JsValue
  sms_sent : Option JsValue
  data_used : Option JsValue
deriving DecidableEq

/-- Key-based access `maybeRequest[k]` for the 12 request keys. -/
def PartialRequest.get (r : PartialRequest) : String → Option JsValue
  | "telecom_partner" => r.telecom_partner
  | "gender" => r.gender
  | "age" => r.age
  | "state" => r.state
  | "city" => r.city
  | "pincode" => r.pincode
  | "date_of_registration" => r.date_of_registration
  | "num_dependents" => r.num_dependents
  | "estimated_salary" => r.estimated_salary
  | "calls_made" => r.calls_made
  | "sms_sent" => r.sms_sent
  | "data_used" => r.data_used
  | _ => none

/-- `InsightsPanel.handleSend` lines 76-80: the `requiredFields` array. -/
def requiredFields : List String :=
  ["telecom_partner", "gender", "age", "state", "city", "pincode",
   "date_of_registration", "num_dependents", "estimated_salary",
   "calls_made", "sms_sent", "data_used"]

/-- The per-field predicate of `handleSend` lines 82-84:
`v === undefined || v === null || (typeof v === 'string' && v.trim() === '')`. -/
def fieldMissing : Option JsValue → Bool
  | none => true
  | some (.str s) => jsTrim s == ""
  | some (.num _) => false

/-- `const missing = requiredFields.filter(...)` (lines 82-84). -/
def missingOf (maybeRequest : PartialRequest) : List String :=
  requiredFields.filter (fun k => fieldMissing (maybeRequest.get k))

/- ### InsightsPanel: canned answers and message formatting -/

/-- `predefinedInsights[0].answer`. -/
def predefinedAnswer0 : String :=
  "Based on our data, the primary churn factors include: 1) Month-to-month contracts show 40% higher churn rates, 2) Customers with fiber optic internet without tech support are 30% more likely to churn, 3) High monthly charges above $80 correlate with increased churn, 4) Customers with tenure under 12 months have significantly higher churn risk."

/-- `predefinedInsights[1].answer`. -/
def predefinedAnswer1 : String :=
  "Key retention strategies: 1) Incentivize long-term contracts with discounts or perks, 2) Proactively offer tech support to fiber optic customers, 3) Implement tiered pricing to reduce monthly charges for loyal customers, 4) Create onboarding programs for new customers in first year, 5) Regular satisfaction surveys and proactive outreach to high-risk customers."

/-- `predefinedInsights[2].answer`. -/
def predefinedAnswer2 : String :=
  "High-risk customer profile typically includes: Month-to-month contract, tenure less than 12 months, fiber optic internet without additional services, monthly charges over $70, electronic check payment method, no tech support or online security, and paperless billing. These customers show 65%+ churn probability."

/-- `predefinedInsights[3].answer`. -/
def predefinedAnswer3 : String :=
  "Two-year contracts have the lowest churn rate at approximately 3-5%, followed by one-year contracts at 15-20%. Month-to-month contracts show the highest churn rate at 45-50%. This demonstrates the strong correlation between contract commitment and customer retention."

/-- The default reply of `generateAIResponse` (lines 279-281). -/
def defaultInsightAnswer : String :=
  "I understand your question about telecom churn analysis. Based on our machine learning model and historical data, I can provide insights on customer behavior patterns, churn risk factors, and retention strategies. Could you be more specific about what aspect you\x27d like to explore?"

/-- `InsightsPanel.generateAIResponse` (lines 268-282): keyword matching on
the lower-cased question. -/
def generateAIResponse (question : String) : String :=
  let lowerQuestion := jsToLower question
  if jsIncludes lowerQuestion "churn" && jsIncludes lowerQuestion "factor" then
    predefinedAnswer0
  else if jsIncludes lowerQuestion "retention" || jsIncludes lowerQuestion "improve" then
    predefinedAnswer1
  else if jsIncludes lowerQuestion "high-risk" || jsIncludes lowerQuestion "profile" then
    predefinedAnswer2
  else if jsIncludes lowerQuestion "contract" && jsIncludes lowerQuestion "churn" then
    predefinedAnswer3
  else
    defaultInsightAnswer

/-- JS `x.toFixed(1)` for the non-negative percentages shown in messages,
rendered at one decimal with round-half-up. -/
def toFixed1 (q : ℚ) : String :=
  let n : ℤ := jsRound (q * 10)
  toString (n / 10) ++ "." ++ toString (n.natAbs % 10)

/-- The suggestion list of `formatPredictionMessage` (lines 245-256). -/
def insightSuggestions (p : ℚ) : List String :=
  if p > 3/5 then
    ["Offer loyalty discount or retention bundle",
     "Proactive support outreach",
     "Review plan suitability and pricing"]
  else if p > 3/10 then
    ["Send targeted retention offer",
     "Check service quality and response times"]
  else
    ["Maintain service quality",
     "Consider upsell of value-added services"]

/-- `InsightsPanel.formatPredictionMessage` (lines 243-266). -/
def formatPredictionMessage (pred : PredictionResponse) : String :=
  jsJoin "\n"
    (["Prediction: " ++ pred.prediction_text ++ " (confidence "
        ++ toFixed1 (pred.confidence * 100) ++ "%)",
      "Churn Probability: " ++ toFixed1 (pred.churn_probability * 100)
        ++ "% (Risk: " ++ formatRisk pred.churn_probability ++ ")",
      "No-Churn Probability: " ++ toFixed1 (pred.no_churn_probability * 100) ++ "%",
      "",
      "Recommended Actions:"]
     ++ (insightSuggestions pred.churn_probability).map (fun s => "- " ++ s))

/-- The guided-clarification text of `handleSend` line 114. -/
def clarificationMessage (missing : List String) : String :=
  "To run a prediction, I still need: " ++ jsJoin ", " missing
    ++ ". Please provide them in a sentence or JSON."

/-- The distinct assistant replies `handleSend` can append. -/
inductive SendOutcome where
  | predicted (content : String)
  | predictionFailed (content : String)
  | clarification (content : String)
  | insightsFallback (content : String)
deriving DecidableEq

/-- `InsightsPanel.handleSend` (lines 58-144) after the extraction step: the
extraction result (`extractPredictionRequest`, an external LLM/regex
collaborator) is the `maybeRequest` argument, the presence of
`VITE_GEMINI_API_KEY` is `hasGeminiKey`, and the `apiService.predictChurn`
outcome is the `api` argument (only consulted on the complete-request path). -/
def handleSend (maybeRequest : PartialRequest) (hasGeminiKey : Bool)
    (api : Except (Option String) PredictionResponse) (input : String) :
    SendOutcome :=
  let missing := missingOf maybeRequest
  if missing.length = 0 then
    match api with
    | .ok prediction => .predicted (formatPredictionMessage prediction)
    | .error e =>
      .predictionFailed
        (jsOrString e "Prediction failed. Please check the backend and try again.")
  else if hasGeminiKey then
    .clarification (clarificationMessage missing)
  else
    .insightsFallback (generateAIResponse (jsTrim input))

/- ### Substring occurrence ("the message names the field") -/

/-- A message names `k` when `k` occurs in it as a contiguous substring. -/
def mentions (msg k : String) : Prop := ∃ pre post, msg = pre ++ k ++ post

/-- The all-fields-absent partial request. -/
def emptyPartialRequest : PartialRequest :=
  ⟨none, none, none, none, none, none, none, none, none, none, none, none⟩

/-- A partial request with every field present and non-blank. -/
def fullPartialRequest : PartialRequest :=
  { telecom_partner := some (.str "Reliance Jio"), gender := some (.str "F")
    age := some (.num 35), state := some (.str "Karnataka")
    city := some (.str "Bangalore"), pincode := some (.num 560001)
    date_of_registration := some (.str "1/1/2020")
    num_dependents := some (.num 2), estimated_salary := some (.num 75000)
    calls_made := some (.num 50), sms_sent := some (.num 30)
    data_used := some (.num 5000) }

/- ### Spec-modelled prediction core (backend `app.py`/`main.py` not in src) -/

/-- Modelled from the spec: `UnseenCategoryError{field, value}` (§4.2, §7) —
the failure an encoder raises on a categorical value outside the trained
vocabulary. The backend source is absent from the reviewed tree. -/
structure UnseenCategoryError where
  field : String
  value : String
deriving DecidableEq

/-- Modelled from the spec: the category-to-index lookup against a fitted
vocabulary (§3 ModelArtifact owns "the category-to-index vocabulary for each
categorical feature"). The backend source is absent from the reviewed tree. -/
def vocabIndex (v : String) : List String → Option ℕ
  | [] => none
  | a :: rest => if a = v then some 0 else (vocabIndex v rest).map (· + 1)

/-- Modelled from the spec: categorical encoding with the deterministic
unseen-category policy of §4.2 — a vocabulary member maps to its index, any
other value fails with `UnseenCategoryError{field, value}` (never a silent
index 0). The backend source is absent from the reviewed tree. -/
def encodeCategorical (vocab : List String) (fieldName v : String) :
    Except UnseenCategoryError ℕ :=
  match vocabIndex v vocab with
  | some i => .ok i
  | none => .error ⟨fieldName, v⟩

/-- Modelled from the spec: per-feature standardization parameters frozen at
training time (§4.2). The backend source is absent from the reviewed tree. -/
structure ScaleParams where
  mean : ℚ
  std : ℚ
deriving DecidableEq

/-- Modelled from the spec: applying a fitted scaling transform (§4.2),
standardization `(x - mean) / std`. The backend source is absent from the
reviewed tree. -/
def applyScale (sp : ScaleParams) (x : ℚ) : ℚ := (x - sp.mean) / sp.std

/-- Modelled from the spec: a deterministic day-count for a `M/D/YYYY`
registration-date string, used for the derived tenure feature (§4.2; months
padded to 31 days, years to 372). The backend source is absent from the
reviewed tree. -/
def dateValue (s : String) : ℚ :=
  match (s.splitOn "/").map (fun t => (t.toNat?).getD 0) with
  | [m, d, y] => ((y * 372 + m * 31 + d : ℕ) : ℚ)
  | _ => 0

/-- Modelled from the spec: the ModelArtifact of §3 — one vocabulary per
categorical feature, frozen scaling parameters per numeric feature, and the
trained classifier parameters. The backend source is absent from the
reviewed tree. -/
structure ModelArtifact where
  vocab_telecom_partner : List String
  vocab_gender : List String
  vocab_state : List String
  vocab_city : List String
  scale_age : ScaleParams
  scale_pincode : ScaleParams
  scale_tenure : ScaleParams
  scale_num_dependents : ScaleParams
  scale_estimated_salary : ScaleParams
  scale_calls_made : ScaleParams
  scale_sms_sent : ScaleParams
  scale_data_used : ScaleParams
  weights : List ℚ
deriving DecidableEq

/-- Modelled from the spec: the Feature Encoder of §4.2 — categorical fields
via the fitted vocabularies, numeric fields through the frozen scaling
transform, the derived tenure from the registration date against an explicit
reference time, output in the artifact's fixed feature order. The backend
source is absent from the reviewed tree. -/
def encodeFeatures (art : ModelArtifact) (refTime : ℚ) (r : PredictionRequest) :
    Except UnseenCategoryError (List ℚ) := do
  let tp ← encodeCategorical art.vocab_telecom_partner "telecom_partner" r.telecom_partner
  let g ← encodeCategorical art.vocab_gender "gender" r.gender
  let st ← encodeCategorical art.vocab_state "state" r.state
  let ct ← encodeCategorical art.vocab_city "city" r.city
  let tenure := refTime - dateValue r.date_of_registration
  pure [(tp : ℚ), (g : ℚ), (st : ℚ), (ct : ℚ),
        applyScale art.scale_age r.age,
        applyScale art.scale_pincode r.pincode,
        applyScale art.scale_tenure tenure,
        applyScale art.scale_num_dependents r.num_dependents,
        applyScale art.scale_estimated_salary r.estimated_salary,
        applyScale art.scale_calls_made r.calls_made,
        applyScale art.scale_sms_sent r.sms_sent,
        applyScale art.scale_data_used r.data_used]

/-- Modelled from the spec: the Prediction Engine of §4.4 normalizing a pair
of non-negative class scores into class probabilities summing to 1, composed
with the Response Composer of §4.5 (majority-class label, winning-class
confidence). The backend source is absent from the reviewed tree. -/
def runPredictionEngine (score_no_churn score_churn : ℚ) : PredictionResponse :=
  let total := score_no_churn + score_churn
  let churnP := score_churn / total
  let noChurnP := score_no_churn / total
  { churn_probability := churnP
    no_churn_probability := noChurnP
    prediction_text := if churnP > noChurnP then "Churn" else "No Churn"
    confidence := max churnP noChurnP }

/-- Modelled from the spec: a deterministic classifier score over the encoded
feature vector (linear in the artifact's trained weights; §2 Prediction
Engine). The backend source is absent from the reviewed tree. -/
def modelScore (weights featureVector : List ℚ) : ℚ :=
  ((weights.zip featureVector).map (fun wx => wx.1 * wx.2)).foldr (· + ·) 0

/-- Modelled from the spec: a rational squashing of a raw score into `[0, 1]`
(the "calibrated probability" of §1; no architecture prescribed by §1
non-goals). The backend source is absent from the reviewed tree. -/
def scoreToProbability (s : ℚ) : ℚ := 1/2 + s / (2 * (1 + |s|))

/-- Modelled from the spec: the Response Composer of §4.5 over a single churn
probability, with `no_churn_probability = 1 - churn_probability` (§3). The
backend source is absent from the reviewed tree. -/
def composeResponse (p : ℚ) : PredictionResponse :=
  { churn_probability := p
    no_churn_probability := 1 - p
    prediction_text := if p > 1 - p then "Churn" else "No Churn"
    confidence := max p (1 - p) }

/-- Modelled from the spec: the full serving pipeline of §2 (validated record
→ Feature Encoder → Prediction Engine → Response Composer) for a fixed
artifact and explicit reference time. The backend source is absent from the
reviewed tree. -/
def servePrediction (art : ModelArtifact) (refTime : ℚ) (r : PredictionRequest) :
    Except UnseenCategoryError PredictionResponse :=
  (encodeFeatures art refTime r).map
    (fun v => composeResponse (scoreToProbability (modelScore art.weights v)))

/-- The spec's §8 scenario input. -/
def scenarioRecord : PredictionRequest :=
  { telecom_partner := "Reliance Jio", gender := "F", age := 35
    state := "Karnataka", city := "Bangalore", pincode := 560001
    date_of_registration := "1/1/2020", num_dependents := 2
    estimated_salary := 75000, calls_made := 50, sms_sent := 30
    data_used := 5000 }

/-- A concrete trained artifact covering the scenario's categorical values. -/
def scenarioArtifact : ModelArtifact :=
  { vocab_telecom_partner := ["Reliance Jio", "Airtel", "Vodafone", "BSNL"]
    vocab_gender := ["M", "F"]
    vocab_state := ["Karnataka"]
    vocab_city := ["Bangalore"]
    scale_age := ⟨0, 1⟩, scale_pincode := ⟨0, 1⟩, scale_tenure := ⟨0, 1⟩
    scale_num_dependents := ⟨0, 1⟩, scale_estimated_salary := ⟨0, 1⟩
    scale_calls_made := ⟨0, 1⟩, scale_sms_sent := ⟨0, 1⟩
    scale_data_used := ⟨0, 1⟩
    weights := [1, 1, 1, 1, 1, 1, 1, 1, 1, 1, 1, 1] }

/- ### Helper lemmas -/

theorem mentions_append_left (a msg k : String) (h : mentions msg k) :
    mentions (a ++ msg) k := by
  obtain ⟨pre, post, h⟩ := h
  refine ⟨a ++ pre, post, ?_⟩
  rw [h]
  rw [String.append_assoc, String.append_assoc, String.append_assoc]

theorem mentions_append_right (msg b k : String) (h : mentions msg k) :
    mentions (msg ++ b) k := by
  obtain ⟨pre, post, h⟩ := h
  refine ⟨pre, post ++ b, ?_⟩
  rw [h]
  rw [String.append_assoc]

/-- Every element of a joined list occurs in the joined string. -/
theorem mentions_jsJoin (sep : String) (l : List String) (k : String)
    (hk : k ∈ l) : mentions (jsJoin sep l) k := by
  induction l with
  | nil => cases hk
  | cons a rest ih =>
    cases rest with
    | nil =>
      rw [List.mem_singleton] at hk
      subst hk
      exact ⟨"", "", (String.append_empty _).symm⟩
    | cons b rest2 =>
      rcases List.mem_cons.mp hk with h | h
      · subst h
        exact ⟨"", sep ++ jsJoin sep (b :: rest2),
          String.append_assoc k sep (jsJoin sep (b :: rest2))⟩
      · exact mentions_append_left (a ++ sep) _ _ (ih h)

/-- A character of a mentioned substring is a character of the message. -/
theorem mentions_mem_data (msg k : String) (h : mentions msg k) (c : Char)
    (hc : c ∈ k.data) : c ∈ msg.data := by
  obtain ⟨pre, post, h⟩ := h
  subst h
  have hd : ((pre ++ k) ++ post).data = (pre.data ++ k.data) ++ post.data := rfl
  rw [hd]
  simp only [List.mem_append]
  exact Or.inl (Or.inr hc)

/-- An unseen value looks up to `none` in any vocabulary not containing it. -/
theorem vocabIndex_eq_none (v : String) (vocab : List String) (h : v ∉ vocab) :
    vocabIndex v vocab = none := by
  induction vocab with
  | nil => rfl
  | cons a rest ih =>
    have hne : ¬ a = v := by
      intro ha
      exact h (ha ▸ List.mem_cons_self a rest)
    rw [vocabIndex, if_neg hne, ih (fun hm => h (List.mem_cons_of_mem a hm))]
    rfl

/- ### Theorems -/

/-- C1: the risk-bucket mapping assigns "high" iff `p > 0.6`, "medium" iff
`0.3 < p ≤ 0.6`, "low" iff `p ≤ 0.3`; in particular `p = 0.6` resolves to
"medium" and `p = 0.3` to "low" (strictly-greater-than semantics). -/
theorem C1_risk_bucket_thresholds (p : ℚ) :
    (riskLevel p = "high" ↔ p > 3/5)
    ∧ (riskLevel p = "medium" ↔ 3/10 < p ∧ p ≤ 3/5)
    ∧ (riskLevel p = "low" ↔ p ≤ 3/10)
    ∧ riskLevel (3/5 : ℚ) = "medium"
    ∧ riskLevel (3/10 : ℚ) = "low" := by
  refine ⟨?_, ?_, ?_, by norm_num [riskLevel], by norm_num [riskLevel]⟩ <;>
    · unfold riskLevel
      split_ifs with h1 h2 <;> simp_all <;> linarith

/-- C7: the two client-side risk buckets agree up to letter case: for every
probability, `PredictPanel.makePrediction` computes "high"/"medium"/"low"
exactly when `InsightsPanel.formatPredictionMessage` computes
"HIGH"/"MEDIUM"/"LOW". -/
theorem C7_risk_buckets_agree (p : ℚ) :
    (riskLevel p = "high" ∧ formatRisk p = "HIGH")
    ∨ (riskLevel p = "medium" ∧ formatRisk p = "MEDIUM")
    ∨ (riskLevel p = "low" ∧ formatRisk p = "LOW") := by
  unfold riskLevel formatRisk
  split_ifs <;> simp

/-- C9: the retention-suggestion list always has between 2 and 4 entries:
3 base entries when `p > 0.6` and 2 otherwise, plus one entry each for
`estimated_salary > 80000` and `num_dependents > 0`, truncated to 4. -/
theorem C9_suggestions_length (p salary deps : ℚ) :
    2 ≤ (predictSuggestions p salary deps).length
    ∧ (predictSuggestions p salary deps).length ≤ 4
    ∧ (predictSuggestions p salary deps).length =
        min ((if p > 3/5 then 3 else 2) + (if salary > 80000 then 1 else 0)
          + (if deps > 0 then 1 else 0)) 4 := by
  unfold predictSuggestions
  split_ifs <;> simp

/-- C10: the charts are total on degenerate data: both render the no-data
placeholder on an empty list, `LineChart`'s max value is floored at 1 and its
x-step divisor at 1, and `BarChart`'s scale is 0 whenever the maximum stacked
value is not positive — so no division by zero occurs. -/
theorem C10_charts_total :
    LineChart [] = .noData
    ∧ BarChart [] = .noData
    ∧ (∀ data : List (String × ℚ), 1 ≤ lineMaxValue data)
    ∧ (∀ n : ℕ, 1 ≤ lineDenom n)
    ∧ (∀ data : List (ℚ × ℚ), barMaxValue data ≤ 0 → barScale data = 0) := by
  refine ⟨rfl, rfl, ?_, ?_, ?_⟩
  · intro data
    unfold lineMaxValue
    induction data with
    | nil => simp
    | cons a as ih =>
      simp only [List.map_cons, List.foldr_cons]
      exact le_max_of_le_right ih
  · intro n
    unfold lineDenom
    split_ifs with h
    · exact le_refl 1
    · omega
  · intro data h
    unfold barScale
    split_ifs with hpos
    · exact absurd (lt_of_lt_of_le hpos h) (lt_irrefl 0)
    · rfl

/-- C10 witness: concrete instances of the guarded divisions. -/
theorem C10_charts_total_witness :
    barScale [((0 : ℚ), (0 : ℚ))] = 0 ∧ LineChart [] = .noData := by
  refine ⟨C10_charts_total.2.2.2.2 [((0 : ℚ), (0 : ℚ))] ?_, C10_charts_total.1⟩
  norm_num [barMaxValue]

/-- C4: on a failed prediction call, `makePrediction` produces no
`PredictionResult` — the result state stays `none`, an error message (the
backend-provided text or the hardcoded fallback) is surfaced, and no default
churn probability is fabricated. -/
theorem C4_error_yields_no_result (form : PredictionRequest) (e : Option String)
    (req : PartialRequest) (input : String) (hreq : missingOf req = []) :
    (makePrediction form (.error e)).result = none
    ∧ (makePrediction form (.error e)).error =
        some (jsOrString e "Failed to make prediction. Please try again.")
    ∧ (makePrediction form (.error e)).error ≠ none
    ∧ ∀ hasGeminiKey, handleSend req hasGeminiKey (.error e) input
        = .predictionFailed
            (jsOrString e "Prediction failed. Please check the backend and try again.") := by
  refine ⟨rfl, rfl, by simp [makePrediction], ?_⟩
  intro hasGeminiKey
  simp [handleSend, hreq]

/-- C4 witness: a concrete failing call, on the complete scenario request. -/
theorem C4_error_yields_no_result_witness :
    missingOf fullPartialRequest = []
    ∧ handleSend fullPartialRequest true (.error (some "Service unavailable")) "hi"
        = .predictionFailed (jsOrString (some "Service unavailable")
            "Prediction failed. Please check the backend and try again.") :=
  ⟨by decide,
   (C4_error_yields_no_result scenarioRecord (some "Service unavailable")
      fullPartialRequest "hi" (by decide)).2.2.2 true⟩

/-- C8: a successful prediction carries
`loyaltyScore = Math.round((1 - churnProbability) * 100)`, and for any churn
probability in `[0, 1]` that score is an integer in `[0, 100]`. -/
theorem C8_loyalty_score (form : PredictionRequest) (resp : PredictionResponse)
    (h0 : 0 ≤ resp.churn_probability) (h1 : resp.churn_probability ≤ 1) :
    ∃ r : PredictionResult,
      (makePrediction form (.ok resp)).result = some r
      ∧ r.loyaltyScore = jsRound ((1 - resp.churn_probability) * 100)
      ∧ 0 ≤ r.loyaltyScore ∧ r.loyaltyScore ≤ 100 := by
  refine ⟨_, rfl, rfl, ?_, ?_⟩
  · show (0 : ℤ) ≤ jsRound ((1 - resp.churn_probability) * 100)
    rw [jsRound, Int.le_floor]
    push_cast
    linarith
  · show jsRound ((1 - resp.churn_probability) * 100) ≤ 100
    rw [jsRound]
    have h : ⌊(1 - resp.churn_probability) * 100 + 1/2⌋ < 101 := by
      rw [Int.floor_lt]
      push_cast
      linarith
    omega

/-- C8 witness: the scenario request at churn probability 1/2. -/
theorem C8_loyalty_score_witness :
    (0 : ℚ) ≤ 1/2 ∧ (1 : ℚ)/2 ≤ 1
    ∧ ∃ r : PredictionResult,
        (makePrediction
          { telecom_partner := "Reliance Jio", gender := "F", age := 35
            state := "Karnataka", city := "Bangalore", pincode := 560001
            date_of_registration := "1/1/2020", num_dependents := 2
            estimated_salary := 75000, calls_made := 50, sms_sent := 30
            data_used := 5000 }
          (.ok { churn_probability := 1/2, no_churn_probability := 1/2
                 prediction_text := "Churn", confidence := 1/2 })).result = some r
        ∧ r.loyaltyScore = jsRound ((1 - (1/2 : ℚ)) * 100)
        ∧ 0 ≤ r.loyaltyScore ∧ r.loyaltyScore ≤ 100 :=
  ⟨by norm_num, by norm_num,
   C8_loyalty_score _ _ (by norm_num) (by norm_num)⟩

/- ### C2 -/

set_option maxRecDepth 4096 in
/-- C2 counterexample: with every field missing and no Gemini key configured,
`handleSend` answers with the canned-insights fallback, which does not name
the missing fields (it does not even contain the substring
"telecom_partner", a missing field), refuting "the failure response names
all missing fields at once" as stated. -/
theorem C2_counterexample :
    missingOf emptyPartialRequest = requiredFields
    ∧ handleSend emptyPartialRequest false
        (.ok { churn_probability := 0, no_churn_probability := 1,
               prediction_text := "No Churn", confidence := 1 }) "hello"
        = .insightsFallback defaultInsightAnswer
    ∧ "telecom_partner" ∈ missingOf emptyPartialRequest
    ∧ ¬ mentions defaultInsightAnswer "telecom_partner" := by
  refine ⟨by decide, by decide, by decide, ?_⟩
  intro h
  have hc : '_' ∈ defaultInsightAnswer.data :=
    mentions_mem_data _ _ h '_' (by decide)
  exact absurd hc (by decide)

/-- C2 (amended): validation computes the missing set as exactly the required
fields whose value is undefined, null, or blank after trimming; when that set
is non-empty no prediction call is made (the outcome is independent of the
API result); and when a Gemini API key is configured the clarification reply
names all missing fields at once — without a key the panel falls back to a
generic canned-insights answer instead. -/
theorem C2_missing_fields_validation (maybeRequest : PartialRequest)
    (api api2 : Except (Option String) PredictionResponse) (input : String)
    (h : missingOf maybeRequest ≠ []) :
    (∀ k, k ∈ missingOf maybeRequest ↔
        (k ∈ requiredFields ∧ fieldMissing (maybeRequest.get k) = true))
    ∧ (∀ hasGeminiKey, handleSend maybeRequest hasGeminiKey api input
        = handleSend maybeRequest hasGeminiKey api2 input)
    ∧ handleSend maybeRequest true api input
        = .clarification (clarificationMessage (missingOf maybeRequest))
    ∧ (∀ k, k ∈ missingOf maybeRequest →
        mentions (clarificationMessage (missingOf maybeRequest)) k)
    ∧ handleSend maybeRequest false api input
        = .insightsFallback (generateAIResponse (jsTrim input)) := by
  have hlen : ¬ (missingOf maybeRequest).length = 0 := fun hl =>
    h (List.length_eq_zero.mp hl)
  refine ⟨?_, ?_, ?_, ?_, ?_⟩
  · intro k
    simp [missingOf, List.mem_filter]
  · intro hasGeminiKey
    simp [handleSend, hlen]
  · simp [handleSend, hlen]
  · intro k hk
    exact mentions_append_right _ _ _
      (mentions_append_left _ _ _ (mentions_jsJoin ", " _ _ hk))
  · simp [handleSend, hlen]

/-- C2 witness: the all-fields-missing request with a Gemini key present. -/
theorem C2_missing_fields_validation_witness :
    missingOf emptyPartialRequest ≠ []
    ∧ handleSend emptyPartialRequest true (.error none) "hi"
        = .clarification (clarificationMessage (missingOf emptyPartialRequest)) :=
  ⟨by decide,
   (C2_missing_fields_validation emptyPartialRequest (.error none)
      (.error (some "boom")) "hi" (by decide)).2.2.1⟩

/-- C3: the modelled prediction result is probability-well-formed:
`churn_probability ∈ [0, 1]`, `no_churn_probability = 1 - churn_probability`,
and the two probabilities sum to 1 within `1e-6`. -/
theorem C3_probabilities_well_formed (s0 s1 : ℚ)
    (h0 : 0 ≤ s0) (h1 : 0 ≤ s1) (hpos : 0 < s0 + s1) :
    0 ≤ (runPredictionEngine s0 s1).churn_probability
    ∧ (runPredictionEngine s0 s1).churn_probability ≤ 1
    ∧ (runPredictionEngine s0 s1).no_churn_probability
        = 1 - (runPredictionEngine s0 s1).churn_probability
    ∧ |(runPredictionEngine s0 s1).churn_probability
        + (runPredictionEngine s0 s1).no_churn_probability - 1| ≤ 1/1000000 := by
  have hchurn : (runPredictionEngine s0 s1).churn_probability = s1 / (s0 + s1) := rfl
  have hno : (runPredictionEngine s0 s1).no_churn_probability = s0 / (s0 + s1) := rfl
  have hsum : s1 / (s0 + s1) + s0 / (s0 + s1) = 1 := by
    rw [div_add_div_same, add_comm s1 s0]
    exact div_self hpos.ne.symm
  rw [hchurn, hno]
  refine ⟨div_nonneg h1 hpos.le, (div_le_one hpos).mpr (by linarith), ?_, ?_⟩
  · linarith
  · rw [hsum]
    norm_num

/-- C3 witness: equal class scores give the well-formed fifty-fifty result. -/
theorem C3_probabilities_well_formed_witness :
    0 ≤ (runPredictionEngine 1 1).churn_probability
    ∧ (runPredictionEngine 1 1).churn_probability ≤ 1
    ∧ (runPredictionEngine 1 1).no_churn_probability
        = 1 - (runPredictionEngine 1 1).churn_probability
    ∧ |(runPredictionEngine 1 1).churn_probability
        + (runPredictionEngine 1 1).no_churn_probability - 1| ≤ 1/1000000 :=
  C3_probabilities_well_formed 1 1 (by norm_num) (by norm_num) (by norm_num)

/-- C5: the modelled pipeline is deterministic: structurally identical
requests encoded at the same reference time against one fixed artifact yield
the same feature vector and the same prediction response. -/
theorem C5_prediction_deterministic (art : ModelArtifact) (t1 t2 : ℚ)
    (r1 r2 : PredictionRequest) (hr : r1 = r2) (ht : t1 = t2) :
    encodeFeatures art t1 r1 = encodeFeatures art t2 r2
    ∧ servePrediction art t1 r1 = servePrediction art t2 r2 := by
  subst hr
  subst ht
  exact ⟨rfl, rfl⟩

/-- C5 witness: two runs on the spec's §8 scenario input coincide. -/
theorem C5_prediction_deterministic_witness :
    encodeFeatures scenarioArtifact 751224 scenarioRecord
      = encodeFeatures scenarioArtifact 751224 scenarioRecord
    ∧ servePrediction scenarioArtifact 751224 scenarioRecord
      = servePrediction scenarioArtifact 751224 scenarioRecord :=
  C5_prediction_deterministic scenarioArtifact 751224 751224
    scenarioRecord scenarioRecord rfl rfl

/-- C6: for a categorical value outside the vocabulary the modelled encoder
fails with `UnseenCategoryError{field, value}` — one fixed deterministic
policy — and in particular never returns any index (index 0 included). -/
theorem C6_unseen_category_policy (vocab : List String) (fieldName v : String)
    (h : v ∉ vocab) :
    encodeCategorical vocab fieldName v = .error ⟨fieldName, v⟩
    ∧ ∀ i : ℕ, encodeCategorical vocab fieldName v ≠ .ok i := by
  have hv : vocabIndex v vocab = none := vocabIndex_eq_none v vocab h
  constructor
  · simp [encodeCategorical, hv]
  · intro i hcontra
    simp [encodeCategorical, hv] at hcontra

/-- C6 witness: a telecom partner outside the trained vocabulary. -/
theorem C6_unseen_category_policy_witness :
    encodeCategorical ["Reliance Jio", "Airtel", "Vodafone", "BSNL"]
        "telecom_partner" "Jio Fiber"
      = .error ⟨"telecom_partner", "Jio Fiber"⟩
    ∧ ∀ i : ℕ, encodeCategorical ["Reliance Jio", "Airtel", "Vodafone", "BSNL"]
        "telecom_partner" "Jio Fiber" ≠ .ok i :=
  C6_unseen_category_policy _ _ _ (by decide)
